import Mathlib

/-
Verification of the myks-gallery core: the thumbnail engine
(src/gallery/imgutil.py) and the protected media server
(src/gallery/views.py), shallowly embedded in Lean 4.

Images are modelled as a pair of dimensions together with a pixel map;
machine-level pixel values are opaque naturals.  Python integer division
`//` on the nonnegative quantities involved coincides with Nat division.
-/

namespace Gallery

/-! ### Image model (for imgutil.py) -/

/-- An in-memory raster image: width, height, and a pixel lookup.
Only the pixels with coordinates inside the bounds are meaningful. -/
structure Image where
  w : Nat
  h : Nat
  pix : Nat → Nat → Nat

/-- Extensional equality of images: same dimensions and the same pixel at
every in-bounds coordinate (PIL transposes only define in-bounds pixels). -/
def ImageEq (a b : Image) : Prop :=
  a.w = b.w ∧ a.h = b.h ∧ ∀ x, x < b.w → ∀ y, y < b.h → a.pix x y = b.pix x y

/-- PIL `Image.FLIP_LEFT_RIGHT`: mirror horizontally. -/
def flipLR (i : Image) : Image :=
  ⟨i.w, i.h, fun x y => i.pix (i.w - 1 - x) y⟩

/-- PIL `Image.FLIP_TOP_BOTTOM`: mirror vertically. -/
def flipTB (i : Image) : Image :=
  ⟨i.w, i.h, fun x y => i.pix x (i.h - 1 - y)⟩

/-- PIL `Image.ROTATE_180`. -/
def rot180 (i : Image) : Image :=
  ⟨i.w, i.h, fun x y => i.pix (i.w - 1 - x) (i.h - 1 - y)⟩

/-- PIL `Image.ROTATE_90`: rotate 90 degrees counterclockwise. -/
def rot90 (i : Image) : Image :=
  ⟨i.h, i.w, fun x y => i.pix (i.w - 1 - y) x⟩

/-- PIL `Image.ROTATE_270`: rotate 270 degrees counterclockwise. -/
def rot270 (i : Image) : Image :=
  ⟨i.h, i.w, fun x y => i.pix y (i.h - 1 - x)⟩

/-- The `exif_rotations` tuple of imgutil.py, entry for entry.  Entry 0 is
Python `None` (not callable), modelled as `none`; every other entry is the
lambda of the source line with the same index. -/
def exif_rotations : List (Option (Image → Image)) :=
  [none,
   some (fun image => image),
   some (fun image => flipLR image),
   some (fun image => rot180 image),
   some (fun image => flipTB image),
   some (fun image => flipLR (rot270 image)),
   some (fun image => rot270 image),
   some (fun image => flipLR (rot90 image)),
   some (fun image => rot90 image)]

/-- Python tuple indexing `t[i]` for a tuple of length `len`: a nonnegative
index must be below `len`, a negative index counts from the end; out of
range on either side raises IndexError, modelled as `none`. -/
def pyTupleIndex (len : Nat) (i : Int) : Option Nat :=
  if 0 ≤ i then
    if i < (len : Int) then some i.toNat else none
  else
    if 0 ≤ (len : Int) + i then some ((len : Int) + i).toNat else none

/-- The auto-rotate step of `make_thumbnail` (imgutil.py lines 30-37).
`exifOrientation = none` models every way `image._getexif()[274]` can fail
(missing EXIF data, missing tag 274, malformed data, any decoding
exception): the broad `except` swallows it and the image is unchanged.
For a present integer value the source evaluates
`exif_rotations[orientation](image)` inside the same `try`: an IndexError
from the tuple lookup or a TypeError from calling the `None` entry is also
swallowed, leaving the image unchanged; otherwise the looked-up transform
is applied.  Non-JPEG formats skip the whole block. -/
def autoRotate (format : String) (exifOrientation : Option Int) (image : Image) : Image :=
  if format = "JPEG" then
    match exifOrientation with
    | none => image
    | some o =>
      match pyTupleIndex exif_rotations.length o with
      | none => image
      | some k =>
        match exif_rotations.getD k none with
        | none => image
        | some f => f image
  else image

/-! ### Pre-crop step of make_thumbnail -/

/-- The crop rectangle `(left, top, right, bottom)` computed by the
pre-crop step of `make_thumbnail` (imgutil.py lines 39-49) for target size
`(tw, th)` and source size `(sw, sh)`.  When the exact integer
cross-multiplication comparison finds the aspect ratios equal the source
performs no crop at all; that case is modelled as the full-image rectangle.
All quantities are nonnegative, so Python `//` is Nat division. -/
def cropBox (tw th sw sh : Nat) : Nat × Nat × Nat × Nat :=
  if tw * sh > sw * th then
    let target_height := sw * th / tw
    let top := (sh - target_height) / 2
    (0, top, sw, top + target_height)
  else if tw * sh < sw * th then
    let target_width := sh * tw / th
    let left := (sw - target_width) / 2
    (left, 0, left + target_width, sh)
  else
    (0, 0, sw, sh)

/-- Width and height of the image produced by the pre-crop step when the
`crop` flag is set (the crop of `image` to `cropBox` has the rectangle's
extent). -/
def preCropSize (tw th sw sh : Nat) : Nat × Nat :=
  match cropBox tw th sw sh with
  | (l, t, r, b) => (r - l, b - t)

/-! ### Save step of make_thumbnail (write-failure cleanup) -/

/-- Python exceptions relevant to the save step. -/
inductive PyError where
  | ioError : PyError
  | nameError : String → PyError
  deriving Repr, DecidableEq

/-- The global names bound in the module imgutil.py: `Image` (from PIL or
the bare fallback), `settings` (from django.conf), `exif_rotations` and
`make_thumbnail`.  The module has no other import statement; in
particular `os` is not among them. -/
def imgutilModuleNames : List String :=
  ["Image", "settings", "exif_rotations", "make_thumbnail"]

/-- The save block of `make_thumbnail` (imgutil.py lines 53-57) acting on
the set of paths present on disk.  `encoderIOError` tells whether
`image.save` raises IOError, and `partialWritten` whether it leaves a
partially written file at `thumbpath` when it does.  On success the
thumbnail is written.  On IOError the handler runs `os.unlink(thumbpath)`
then a bare `raise`: the lookup of the global name `os` follows Python
name resolution against the module namespace, so if `os` is unbound the
handler itself raises NameError (and neither deletes the file nor reaches
the re-raise). -/
def saveBlock (moduleNames : List String) (encoderIOError partialWritten : Bool)
    (fs : List String) (thumbpath : String) : Except PyError Unit × List String :=
  if encoderIOError then
    let fs' := if partialWritten then thumbpath :: fs else fs
    if "os" ∈ moduleNames then
      (Except.error PyError.ioError, fs'.filter (fun p => p ≠ thumbpath))
    else
      (Except.error (PyError.nameError "os"), fs')
  else
    (Except.ok (), thumbpath :: fs)

/-! ### Protected media server (views.py) -/

/-- Result of `os.stat` on an existing path: modification time (seconds),
size in bytes, and whether `stat.S_ISREG` holds for its mode. -/
structure FileStat where
  mtime : Int
  size : Nat
  isRegular : Bool
  deriving Repr, DecidableEq

/-- The filesystem as seen by `serve_private_media`: `stat p = none` means
`os.path.exists(p)` is false, otherwise the stat result; `contents` is
what `open(p, 'rb').read()` returns. -/
structure FileSys where
  stat : String → Option FileStat
  contents : String → List Nat

/-- The Django settings consulted by `serve_private_media`. -/
structure ServeSettings where
  debug : Bool
  sendfileRoot : String
  sendfileHeader : String

/-- The `If-Modified-Since` request header as Django's
`was_modified_since` sees it after regex matching and HTTP-date parsing:
absent, unparseable (regex mismatch, bad date, overflow), or a parsed
date together with the optional `; length=` attribute. -/
inductive ImsHeader where
  | absent : ImsHeader
  | malformed : ImsHeader
  | valid : Int → Option Nat → ImsHeader

/-- Django's `django.views.static.was_modified_since` (the external
collaborator called at views.py line 196): an absent or unparseable
header counts as modified; a parsed header counts as modified when its
length attribute is present and differs from the file size, or when the
file's mtime is newer than the header date. -/
def was_modified_since (header : ImsHeader) (mtime : Int) (size : Nat) : Bool :=
  match header with
  | ImsHeader.absent => true
  | ImsHeader.malformed => true
  | ImsHeader.valid date length =>
    (match length with
     | some n => decide (n ≠ size)
     | none => false) || decide (mtime > date)

/-- Python truthiness of an optional string (`mimetype or ...`,
`if encoding:`): `None` and the empty string are falsy. -/
def pyTruthy (o : Option String) : Bool :=
  match o with
  | none => false
  | some s => s ≠ ""

/-- Python `s.startswith(p)`: the code points of `p` are an initial
segment of those of `s`. -/
def pyStartsWith (s p : String) : Bool :=
  p.data.isPrefixOf s.data

/-- Python slicing `s[n:]` on code points (`path[len(root):]`). -/
def pySliceFrom (s : String) (n : Nat) : String :=
  String.mk (s.data.drop n)

/-- Python `len(s)` in code points. -/
def pyLen (s : String) : Nat :=
  s.data.length

/-- The errors `serve_private_media` can raise: `Http404` (views.py line
190) and the `ValueError` signalling a sendfile misconfiguration
(views.py line 208) — the spec's NotFound and ConfigurationError. -/
inductive ServeError where
  | notFound : String → ServeError
  | configurationError : String → ServeError
  deriving Repr, DecidableEq

/-- The HTTP response built by `serve_private_media`, with each header it
may set.  `lastModified = some t` stands for a `Last-Modified` header
holding `http_date t` (Django's HTTP-date formatting of the mtime);
`sendfile = some (name, value)` stands for the delegation header. -/
structure MediaResponse where
  status : Nat
  mimetype : String
  body : List Nat
  sendfile : Option (String × String)
  lastModified : Option Int
  contentLength : Option Nat
  contentEncoding : Option String
  deriving Repr, DecidableEq

/-- The message of the `Http404` raised for a missing path (views.py
line 190). -/
def notFoundMessage : String := "Requested file doesn't exist."

/-- The message of the `ValueError` raised for a path outside
`SENDFILE_ROOT` (views.py line 208). -/
def sendfileRootMessage : String := "Requested file isn't under SENDFILE_ROOT."

/-- Shallow embedding of `serve_private_media(request, path)` (views.py
lines 162-220).  `sniff` is the result of `mimetypes.guess_type(path)`
(an external table lookup on the path's extension): the guessed type and
the detected content encoding.  The steps follow the source in order:
existence check, stat, conditional GET (returning a 304 with only the
mimetype), then either the debug branch (read the file into the body) or
the sendfile branch (empty body, delegation header with the root
stripped after the containment check), and finally the
Last-Modified / Content-Length / Content-Encoding headers. -/
def serve_private_media (st : ServeSettings) (ims : ImsHeader) (fs : FileSys)
    (sniff : Option String × Option String) (path : String) :
    Except ServeError MediaResponse :=
  match fs.stat path with
  | none => Except.error (ServeError.notFound notFoundMessage)
  | some statobj =>
    let mimetype := if pyTruthy sniff.1 then sniff.1.getD "" else "application/octet-stream"
    let encoding := sniff.2
    if ¬ was_modified_since ims statobj.mtime statobj.size then
      Except.ok { status := 304, mimetype := mimetype, body := [], sendfile := none,
                  lastModified := none, contentLength := none, contentEncoding := none }
    else
      let withHeaders : MediaResponse → MediaResponse := fun r =>
        { r with lastModified := some statobj.mtime,
                 contentLength := if statobj.isRegular then some statobj.size else none,
                 contentEncoding := if pyTruthy encoding then encoding else none }
      if st.debug then
        Except.ok (withHeaders
          { status := 200, mimetype := mimetype, body := fs.contents path,
            sendfile := none, lastModified := none, contentLength := none,
            contentEncoding := none })
      else
        if st.sendfileRoot ≠ "" then
          if ¬ pyStartsWith path st.sendfileRoot then
            Except.error (ServeError.configurationError sendfileRootMessage)
          else
            Except.ok (withHeaders
              { status := 200, mimetype := mimetype, body := [],
                sendfile := some (st.sendfileHeader,
                                  pySliceFrom path (pyLen st.sendfileRoot)),
                lastModified := none, contentLength := none, contentEncoding := none })
        else
          Except.ok (withHeaders
            { status := 200, mimetype := mimetype, body := [],
              sendfile := some (st.sendfileHeader, path),
              lastModified := none, contentLength := none, contentEncoding := none })

/-! ### asciify (views.py line 223) -/

/-- Unicode canonical compatibility decomposition (NFKD) of one code
point, the external `unicodedata.normalize('NFKD', ...)` collaborator,
tabulated per the Unicode character database for the code points the
specification exercises: U+00E9 LATIN SMALL LETTER E WITH ACUTE
decomposes to U+0065 followed by U+0301 COMBINING ACUTE ACCENT; ASCII
code points and the CJK ideographs U+65E5, U+672C, U+8A9E have no
decomposition. -/
def nfkdChar (c : Nat) : List Nat :=
  if c = 233 then [101, 769] else [c]

/-- NFKD normalization of a string of code points. -/
def nfkd (cs : List Nat) : List Nat :=
  cs.flatMap nfkdChar

/-- Shallow embedding of `asciify(value)`: NFKD-normalize, then
`.encode('ascii', 'ignore')`, which keeps exactly the code points below
128 and drops the rest.  Strings are sequences of Unicode code points. -/
def asciify (cs : List Nat) : List Nat :=
  (nfkd cs).filter (fun c => c < 128)

/-! ### Orientation transforms viewed through the table -/

/-- The transform the auto-rotate table applies for an in-range
orientation value `o` (1-8): entry `o` of `exif_rotations`.  Out-of-table
indices fall back to the identity (they never occur for 1-8). -/
def orientTransform (o : Nat) : Image → Image :=
  (exif_rotations.getD o none).getD (fun image => image)

/-- Inverse geometric transform for each orientation value 1-8 (a
verification artifact: the horizontal and vertical flips, the 180
rotation and the two transposes are self-inverse, and the two quarter
rotations invert each other). -/
def orientTransformInv (o : Nat) : Image → Image :=
  match o with
  | 2 => flipLR
  | 3 => rot180
  | 4 => flipTB
  | 5 => fun image => rot90 (flipLR image)
  | 6 => rot90
  | 7 => fun image => rot270 (flipLR image)
  | 8 => rot270
  | _ => fun image => image

/-! ### Concrete fixtures used by witnesses and counterexamples -/

/-- A 2x1 image whose two pixels differ, to detect non-identity
transforms. -/
def exifTestImage : Image :=
  ⟨2, 1, fun x _ => x⟩

/-- A filesystem holding a regular 5-byte file (mtime 100) at
`/data/a/x.jpg` and at `/other/x.jpg`, and nothing else. -/
def galleryFs : FileSys :=
  ⟨fun p => if p = "/data/a/x.jpg" ∨ p = "/other/x.jpg"
            then some ⟨100, 5, true⟩ else none,
   fun _ => [10, 20, 30, 40, 50]⟩

/-- Production settings: DEBUG off, SENDFILE_ROOT `/data`, nginx-style
header. -/
def prodSettings : ServeSettings :=
  ⟨false, "/data", "X-Accel-Redirect"⟩

/-- Development settings: DEBUG on. -/
def debugSettings : ServeSettings :=
  ⟨true, "/data", "X-Accel-Redirect"⟩

end Gallery

namespace Gallery

/-! ### Shared helper lemmas -/

/-- Pixel lookups agree on equal coordinates. -/
theorem pixCongr (i : Image) (a b x y : Nat) (ha : a = x) (hb : b = y) :
    i.pix a b = i.pix x y := by
  rw [ha, hb]

/-- Division bounds: `a / b` is the exact quotient to within less than
one (the quantitative content of the plus or minus one pixel clause). -/
theorem nat_div_bounds (a b : Nat) (hb : 0 < b) :
    b * (a / b) ≤ a ∧ a < b * (a / b + 1) := by
  constructor
  · exact Nat.mul_div_le a b
  · calc a = b * (a / b) + a % b := (Nat.div_add_mod a b).symm
    _ < b * (a / b) + b := Nat.add_lt_add_left (Nat.mod_lt a hb) _
    _ = b * (a / b + 1) := by ring

/-! ### C1: write-failure cleanup in make_thumbnail -/

/-- Claim C1: the spec says a failed save deletes the partially written
file at `thumbpath` and re-raises the IOError.  The code cannot do this:
module imgutil.py never binds the name `os`, so the handler's
`os.unlink(thumbpath)` raises NameError before any deletion or re-raise,
and the partially written file stays on disk.  This theorem evaluates the
save block at the failing input (encoder raises IOError after writing a
partial file to `/thumbs/t.jpg` on an empty disk): the escaping exception
is `NameError: os` and the file is still present.  The spec (design note
on the cleanup path) records deletion as the intent, so the code, not the
claim, is wrong. -/
theorem save_failure_keeps_file_and_raises_name_error :
    "os" ∉ imgutilModuleNames ∧
    saveBlock imgutilModuleNames true true [] "/thumbs/t.jpg" =
      (Except.error (PyError.nameError "os"), ["/thumbs/t.jpg"]) := by
  constructor
  · decide
  · rfl

/-! ### C6: missing path gives a constant NotFound message -/

/-- Claim C6: for every path that does not exist, `serve_private_media`
raises `Http404` whose message is the fixed literal
`Requested file doesn't exist.` — the same for every path and every
request, so no part of the requested filesystem path can appear in it
(views.py lines 188-190). -/
theorem missing_path_not_found_constant (st : ServeSettings) (ims : ImsHeader)
    (fs : FileSys) (sniff : Option String × Option String) (path : String)
    (habsent : fs.stat path = none) :
    serve_private_media st ims fs sniff path =
      Except.error (ServeError.notFound notFoundMessage) := by
  unfold serve_private_media
  rw [habsent]

/-- Witness for C6: serving the absent path `/secret/p.jpg` over the
concrete fixture filesystem yields the constant NotFound error. -/
theorem missing_path_not_found_constant_witness :
    serve_private_media prodSettings ImsHeader.absent galleryFs
        (some "image/jpeg", none) "/secret/p.jpg" =
      Except.error (ServeError.notFound notFoundMessage) :=
  missing_path_not_found_constant prodSettings ImsHeader.absent galleryFs
    (some "image/jpeg", none) "/secret/p.jpg" (by decide)

/-! ### C8: asciify -/

/-- Claim C8: `asciify` is a total function of the input code-point
sequence (the embedding realizes it as a Lean function, so it is
deterministic and never raises, also on the empty string and on strings
with no ASCII-representable characters), it is NFKD normalization
followed by dropping the code points at or above 128, every code point of
its output is ASCII, and on the spec's examples: `Café` gives `Cafe`, the
empty string gives the empty string, and the three CJK ideographs of
`日本語` give the empty string. -/
theorem asciify_spec :
    asciify [67, 97, 102, 233] = [67, 97, 102, 101] ∧
    asciify [] = [] ∧
    asciify [26085, 26412, 35486] = [] ∧
    (∀ cs : List Nat, (asciify cs).all (fun c => decide (c < 128)) = true) := by
  refine ⟨by decide, by decide, by decide, fun cs => ?_⟩
  rw [List.all_eq_true]
  intro c hc
  exact (List.mem_filter.mp hc).2

/-! ### C2: sendfile root containment check -/

/-- Counterexample to claim C2 as stated: a call in non-debug mode on an
existing path outside `SENDFILE_ROOT` does not raise when the
conditional GET finds the file unmodified — the 304 short-circuit at
views.py line 198 runs before the containment check at line 207, so the
call returns a 304 response instead of raising ConfigurationError. -/
theorem sendfile_check_skipped_on_not_modified :
    pyStartsWith "/other/x.jpg" "/data" = false ∧
    serve_private_media prodSettings (ImsHeader.valid 100 (some 5)) galleryFs
        (some "image/jpeg", none) "/other/x.jpg" =
      Except.ok { status := 304, mimetype := "image/jpeg", body := [],
                  sendfile := none, lastModified := none, contentLength := none,
                  contentEncoding := none } :=
  ⟨by decide, rfl⟩

/-- Claim C2, amended with the condition the counterexample forces: in
non-debug mode, on an existing path that the conditional GET finds
modified, with `SENDFILE_ROOT` non-empty, the call raises
ConfigurationError iff the path does not start with the root; when it
does start with it, the delegation header's value is the path with the
root sliced off the front. -/
theorem sendfile_root_check_iff (st : ServeSettings) (ims : ImsHeader)
    (fs : FileSys) (sniff : Option String × Option String) (path : String)
    (stObj : FileStat)
    (hdbg : st.debug = false) (hstat : fs.stat path = some stObj)
    (hmod : was_modified_since ims stObj.mtime stObj.size = true)
    (hroot : st.sendfileRoot ≠ "") :
    ((∃ m, serve_private_media st ims fs sniff path =
        Except.error (ServeError.configurationError m)) ↔
      pyStartsWith path st.sendfileRoot = false) ∧
    (pyStartsWith path st.sendfileRoot = true →
      ∃ r, serve_private_media st ims fs sniff path = Except.ok r ∧
        r.sendfile = some (st.sendfileHeader, pySliceFrom path (pyLen st.sendfileRoot))) := by
  cases hb : pyStartsWith path st.sendfileRoot with
  | false =>
    have hserve : serve_private_media st ims fs sniff path =
        Except.error (ServeError.configurationError sendfileRootMessage) := by
      unfold serve_private_media
      rw [hstat]
      simp [hmod, hdbg, hroot, hb]
    exact ⟨⟨fun _ => rfl, fun _ => ⟨sendfileRootMessage, hserve⟩⟩, fun h => by cases h⟩
  | true =>
    have hserve : serve_private_media st ims fs sniff path =
        Except.ok { status := 200,
                    mimetype := if pyTruthy sniff.1 then sniff.1.getD ""
                                else "application/octet-stream",
                    body := [],
                    sendfile := some (st.sendfileHeader,
                                      pySliceFrom path (pyLen st.sendfileRoot)),
                    lastModified := some stObj.mtime,
                    contentLength := if stObj.isRegular then some stObj.size else none,
                    contentEncoding := if pyTruthy sniff.2 then sniff.2 else none } := by
      unfold serve_private_media
      rw [hstat]
      simp [hmod, hdbg, hroot, hb]
    constructor
    · constructor
      · rintro ⟨m, hm⟩
        rw [hserve] at hm
        cases hm
      · intro h
        cases h
    · intro _
      exact ⟨_, hserve, rfl⟩

/-- Witness for the amended C2, on the spec's own example: root `/data`,
path `/data/a/x.jpg`, plain GET in production mode — the delegation
header value is `/a/x.jpg`. -/
theorem sendfile_root_check_iff_witness :
    ∃ r, serve_private_media prodSettings ImsHeader.absent galleryFs
        (some "image/jpeg", none) "/data/a/x.jpg" = Except.ok r ∧
      r.sendfile = some ("X-Accel-Redirect", "/a/x.jpg") := by
  have h := (sendfile_root_check_iff prodSettings ImsHeader.absent galleryFs
      (some "image/jpeg", none) "/data/a/x.jpg" ⟨100, 5, true⟩
      rfl (by decide) rfl (by decide)).2 (by decide)
  simpa using h

/-! ### C7: response headers -/

/-- Counterexample to claim C7 as stated: the 304 not-modified response
carries no Last-Modified header at all (and no Content-Length, although
the served file is a regular file of size 5, and no Content-Encoding
although the sniff detected `gzip`): the early return at views.py line
198 precedes the header assignments at lines 213-217. -/
theorem not_modified_response_lacks_headers :
    galleryFs.stat "/data/a/x.jpg" = some ⟨100, 5, true⟩ ∧
    serve_private_media debugSettings (ImsHeader.valid 100 (some 5)) galleryFs
        (some "image/jpeg", some "gzip") "/data/a/x.jpg" =
      Except.ok { status := 304, mimetype := "image/jpeg", body := [],
                  sendfile := none, lastModified := none, contentLength := none,
                  contentEncoding := none } :=
  ⟨by decide, rfl⟩

/-- Claim C7, amended with the condition the counterexample forces:
every 200 response (produced when the conditional GET finds the file
modified) carries Last-Modified holding the HTTP-date of the file's
mtime, carries Content-Length exactly when the file is a regular file,
and carries Content-Encoding exactly when the MIME sniff detected a
(non-empty) encoding; the 304 response carries none of those headers,
only the mimetype. -/
theorem response_headers_contract :
    (∀ (st : ServeSettings) (ims : ImsHeader) (fs : FileSys)
       (sniff : Option String × Option String) (path : String)
       (stObj : FileStat) (r : MediaResponse),
       fs.stat path = some stObj →
       was_modified_since ims stObj.mtime stObj.size = true →
       serve_private_media st ims fs sniff path = Except.ok r →
       r.status = 200 ∧
       r.lastModified = some stObj.mtime ∧
       r.contentLength = (if stObj.isRegular then some stObj.size else none) ∧
       r.contentEncoding = (if pyTruthy sniff.2 then sniff.2 else none)) ∧
    (∀ (st : ServeSettings) (ims : ImsHeader) (fs : FileSys)
       (sniff : Option String × Option String) (path : String)
       (stObj : FileStat),
       fs.stat path = some stObj →
       was_modified_since ims stObj.mtime stObj.size = false →
       serve_private_media st ims fs sniff path =
         Except.ok { status := 304,
                     mimetype := if pyTruthy sniff.1 then sniff.1.getD ""
                                 else "application/octet-stream",
                     body := [], sendfile := none, lastModified := none,
                     contentLength := none, contentEncoding := none }) := by
  constructor
  · intro st ims fs sniff path stObj r hstat hmod hok
    unfold serve_private_media at hok
    rw [hstat] at hok
    by_cases hd : st.debug
    · simp [hmod, hd] at hok
      subst hok
      simp
    · by_cases hr : st.sendfileRoot = ""
      · simp [hmod, hd, hr] at hok
        subst hok
        simp
      · by_cases hs : pyStartsWith path st.sendfileRoot
        · simp [hmod, hd, hr, hs] at hok
          subst hok
          simp
        · simp [hmod, hd, hr, hs] at hok
  · intro st ims fs sniff path stObj hstat hmod
    unfold serve_private_media
    rw [hstat]
    simp [hmod]

/-- Witness for the amended C7: a modified production request for
`/data/a/x.jpg` (regular file, size 5, mtime 100, sniffed encoding
`gzip`) carries all three headers. -/
theorem response_headers_contract_witness :
    ∃ r, serve_private_media prodSettings ImsHeader.absent galleryFs
        (some "image/jpeg", some "gzip") "/data/a/x.jpg" = Except.ok r ∧
      r.status = 200 ∧ r.lastModified = some 100 ∧
      r.contentLength = some 5 ∧ r.contentEncoding = some "gzip" := by
  have hok : serve_private_media prodSettings ImsHeader.absent galleryFs
      (some "image/jpeg", some "gzip") "/data/a/x.jpg" =
      Except.ok { status := 200, mimetype := "image/jpeg", body := [],
                  sendfile := some ("X-Accel-Redirect", "/a/x.jpg"),
                  lastModified := some 100, contentLength := some 5,
                  contentEncoding := some "gzip" } := rfl
  have h := response_headers_contract.1 prodSettings ImsHeader.absent galleryFs
      (some "image/jpeg", some "gzip") "/data/a/x.jpg" ⟨100, 5, true⟩ _
      rfl rfl hok
  exact ⟨_, hok, h.1, by simp, by simp, by simp⟩

/-! ### C9: debug mode has no containment check -/

/-- Claim C9: in debug mode, on an existing modified path, the full file
contents are returned with status 200 and no delegation header, with no
look at `SENDFILE_ROOT` (the path may lie outside it); and a
ConfigurationError can only come out of a call with debug off. -/
theorem debug_serving_ignores_sendfile_root :
    (∀ (st : ServeSettings) (ims : ImsHeader) (fs : FileSys)
       (sniff : Option String × Option String) (path : String)
       (stObj : FileStat),
       st.debug = true →
       fs.stat path = some stObj →
       was_modified_since ims stObj.mtime stObj.size = true →
       serve_private_media st ims fs sniff path =
         Except.ok { status := 200,
                     mimetype := if pyTruthy sniff.1 then sniff.1.getD ""
                                 else "application/octet-stream",
                     body := fs.contents path, sendfile := none,
                     lastModified := some stObj.mtime,
                     contentLength := if stObj.isRegular then some stObj.size else none,
                     contentEncoding := if pyTruthy sniff.2 then sniff.2 else none }) ∧
    (∀ (st : ServeSettings) (ims : ImsHeader) (fs : FileSys)
       (sniff : Option String × Option String) (path : String) (m : String),
       serve_private_media st ims fs sniff path =
         Except.error (ServeError.configurationError m) →
       st.debug = false) := by
  constructor
  · intro st ims fs sniff path stObj hdbg hstat hmod
    unfold serve_private_media
    rw [hstat]
    simp [hmod, hdbg]
  · intro st ims fs sniff path m h
    cases hd : st.debug
    · rfl
    · exfalso
      unfold serve_private_media at h
      cases hstat : fs.stat path with
      | none =>
        rw [hstat] at h
        cases h
      | some stObj =>
        rw [hstat] at h
        by_cases hm : was_modified_since ims stObj.mtime stObj.size
        · simp only [hm, hd] at h
          cases h
        · simp only [hm] at h
          cases h

/-! ### C3: EXIF failure handling in the auto-rotate step -/

/-- Counterexample to claim C3 as stated: the claim says every
orientation value outside 1-8 gets the identity orientation, but for the
value -1 (conceivable from malformed EXIF data, since the broad `except`
is there precisely because `_getexif` output is untrusted) Python tuple
indexing wraps around: `exif_rotations[-1]` is the last entry, so the
image is rotated 90 degrees counterclockwise instead of being left
alone — on the concrete 2x1 test image, the result differs from the
original already in its dimensions.  No error escapes, as the claim
says; the identity part is what fails. -/
theorem negative_orientation_applies_transform :
    autoRotate "JPEG" (some (-1)) exifTestImage = rot90 exifTestImage ∧
    ¬ ImageEq (autoRotate "JPEG" (some (-1)) exifTestImage) exifTestImage := by
  constructor
  · rfl
  · intro h
    exact absurd h.1 (by decide)

/-- Claim C3, amended with the negative-index wrap the counterexample
forces: a failed EXIF read (`none`) and a non-JPEG format leave the
image unchanged; an orientation value of 0, above 8, or below -8 also
leaves it unchanged (entry 0 of the tuple is `None`, so calling it
raises a TypeError that the broad `except` swallows, and out-of-range
indices raise IndexError, likewise swallowed); a value in -8..-1 applies
the table entry at position `9 + v` by Python negative indexing.  In
every case the step is total: no error reaches the caller. -/
theorem exif_failure_gives_identity (format : String) (image : Image) :
    (∀ o : Option Int, format ≠ "JPEG" → autoRotate format o image = image) ∧
    (autoRotate format none image = image) ∧
    (∀ v : Int, v = 0 ∨ 8 < v ∨ v < -8 → autoRotate format (some v) image = image) ∧
    (∀ v : Int, -8 ≤ v → v ≤ -1 →
      autoRotate "JPEG" (some v) image = orientTransform (9 + v).toNat image) := by
  refine ⟨?_, ?_, ?_, ?_⟩
  · intro o hf
    unfold autoRotate
    rw [if_neg hf]
  · unfold autoRotate
    by_cases hf : format = "JPEG"
    · rw [if_pos hf]
    · rw [if_neg hf]
  · intro v hv
    unfold autoRotate
    by_cases hf : format = "JPEG"
    · rw [if_pos hf]
      have hidx : pyTupleIndex 9 v = none ∨ pyTupleIndex 9 v = some 0 := by
        rcases hv with h0 | h8 | hneg
        · subst h0
          right
          rfl
        · left
          unfold pyTupleIndex
          rw [if_pos (by omega), if_neg (by omega)]
        · unfold pyTupleIndex
          rw [if_neg (by omega)]
          by_cases h9 : v = -9
          · subst h9
            right
            rfl
          · left
            rw [if_neg (by omega)]
      rcases hidx with hi | hi <;> simp [hi, exif_rotations]
    · rw [if_neg hf]
  · intro v h1 h2
    interval_cases v <;> rfl

/-- Witness for the amended C3: orientation 9 (out of range above),
orientation 0, orientation -20 (out of range below), a non-JPEG format,
and a missing tag all leave the test image unchanged, and orientation
-3 applies table entry 6 (rotate 270). -/
theorem exif_failure_gives_identity_witness :
    autoRotate "JPEG" (some 9) exifTestImage = exifTestImage ∧
    autoRotate "JPEG" (some 0) exifTestImage = exifTestImage ∧
    autoRotate "JPEG" (some (-20)) exifTestImage = exifTestImage ∧
    autoRotate "PNG" (some 3) exifTestImage = exifTestImage ∧
    autoRotate "JPEG" none exifTestImage = exifTestImage ∧
    autoRotate "JPEG" (some (-3)) exifTestImage = orientTransform 6 exifTestImage :=
  ⟨(exif_failure_gives_identity "JPEG" exifTestImage).2.2.1 9 (by omega),
   (exif_failure_gives_identity "JPEG" exifTestImage).2.2.1 0 (by omega),
   (exif_failure_gives_identity "JPEG" exifTestImage).2.2.1 (-20) (by omega),
   (exif_failure_gives_identity "PNG" exifTestImage).1 (some 3) (by decide),
   (exif_failure_gives_identity "JPEG" exifTestImage).2.1,
   (exif_failure_gives_identity "JPEG" exifTestImage).2.2.2 (-3) (by omega) (by omega)⟩

/-! ### C4: pre-crop aspect ratio -/

/-- Claim C4: for positive source `(sw, sh)` and target `(tw, th)` with
crop requested, the pre-crop compares `tw*sh` with `sw*th` by exact
integer cross-multiplication and crops nothing when they are equal;
when the target is relatively wider it keeps the full width and the
centered height `sw*th / tw` (`top = (sh - target_height) / 2`), and
that height is the exact ratio-matching height to within less than one
pixel: `tw * height ≤ sw * th < tw * (height + 1)`; symmetric on width
when the target is relatively taller. -/
theorem precrop_aspect_ratio (sw sh tw th : Nat)
    (hsw : 0 < sw) (hsh : 0 < sh) (htw : 0 < tw) (hth : 0 < th) :
    (tw * sh = sw * th → cropBox tw th sw sh = (0, 0, sw, sh)) ∧
    (sw * th < tw * sh →
      cropBox tw th sw sh =
        (0, (sh - sw * th / tw) / 2, sw,
         (sh - sw * th / tw) / 2 + sw * th / tw) ∧
      preCropSize tw th sw sh = (sw, sw * th / tw) ∧
      tw * (sw * th / tw) ≤ sw * th ∧ sw * th < tw * (sw * th / tw + 1)) ∧
    (tw * sh < sw * th →
      cropBox tw th sw sh =
        ((sw - sh * tw / th) / 2, 0,
         (sw - sh * tw / th) / 2 + sh * tw / th, sh) ∧
      preCropSize tw th sw sh = (sh * tw / th, sh) ∧
      th * (sh * tw / th) ≤ sh * tw ∧ sh * tw < th * (sh * tw / th + 1)) := by
  refine ⟨?_, ?_, ?_⟩
  · intro heq
    unfold cropBox
    rw [if_neg (by omega), if_neg (by omega)]
  · intro hgt
    have hbox : cropBox tw th sw sh =
        (0, (sh - sw * th / tw) / 2, sw,
         (sh - sw * th / tw) / 2 + sw * th / tw) := by
      unfold cropBox
      rw [if_pos hgt]
    refine ⟨hbox, ?_, nat_div_bounds (sw * th) tw htw⟩
    unfold preCropSize
    rw [hbox]
    simp
  · intro hlt
    have hbox : cropBox tw th sw sh =
        ((sw - sh * tw / th) / 2, 0,
         (sw - sh * tw / th) / 2 + sh * tw / th, sh) := by
      unfold cropBox
      rw [if_neg (by omega), if_pos hlt]
    refine ⟨hbox, ?_, nat_div_bounds (sh * tw) th hth⟩
    unfold preCropSize
    rw [hbox]
    simp

/-- Witness for C4: a 400x300 source cropped for a 16x9 target keeps the
full width 400 and gets the centered height 225 = 400*9/16 (top 37),
and 16*225 ≤ 3600 < 16*226. -/
theorem precrop_aspect_ratio_witness :
    cropBox 16 9 400 300 = (0, 37, 400, 262) ∧
    preCropSize 16 9 400 300 = (400, 225) := by
  have h := (precrop_aspect_ratio 400 300 16 9 (by omega) (by omega)
      (by omega) (by omega)).2.1 (by omega)
  exact ⟨h.1, h.2.1⟩

/-! ### C10: the crop rectangle stays inside the source -/

/-- Claim C10: for positive dimensions, the crop rectangle
`(left, top, right, bottom)` lies inside the source image
(`left ≤ right ≤ sw`, `top ≤ bottom ≤ sh`, all coordinates nonnegative
by construction, and the subtractions `sh - target_height` and
`sw - target_width` never truncate since the computed extent is strictly
below the source extent), and the untouched dimension is kept whole:
full width when cropping vertically, full height when cropping
horizontally. -/
theorem crop_box_within_bounds (sw sh tw th : Nat)
    (hsw : 0 < sw) (hsh : 0 < sh) (htw : 0 < tw) (hth : 0 < th) :
    ((cropBox tw th sw sh).1 ≤ (cropBox tw th sw sh).2.2.1 ∧
     (cropBox tw th sw sh).2.1 ≤ (cropBox tw th sw sh).2.2.2 ∧
     (cropBox tw th sw sh).2.2.1 ≤ sw ∧
     (cropBox tw th sw sh).2.2.2 ≤ sh) ∧
    (sw * th < tw * sh →
      (cropBox tw th sw sh).1 = 0 ∧ (cropBox tw th sw sh).2.2.1 = sw ∧
      sw * th / tw < sh) ∧
    (tw * sh < sw * th →
      (cropBox tw th sw sh).2.1 = 0 ∧ (cropBox tw th sw sh).2.2.2 = sh ∧
      sh * tw / th < sw) := by
  rcases Nat.lt_trichotomy (sw * th) (tw * sh) with hgt | heq | hlt
  · have hq : sw * th / tw < sh := Nat.div_lt_of_lt_mul hgt
    have ht : (sh - sw * th / tw) / 2 ≤ sh - sw * th / tw := Nat.div_le_self _ _
    have hbox : cropBox tw th sw sh =
        (0, (sh - sw * th / tw) / 2, sw,
         (sh - sw * th / tw) / 2 + sw * th / tw) := by
      unfold cropBox
      rw [if_pos hgt]
    rw [hbox]
    dsimp only
    generalize hqv : sw * th / tw = q at hq ht ⊢
    refine ⟨⟨Nat.zero_le _, Nat.le_add_right _ _, Nat.le_refl _, by omega⟩,
            fun _ => ⟨rfl, rfl, hq⟩, fun h => absurd h (Nat.lt_asymm hgt)⟩
  · have hbox : cropBox tw th sw sh = (0, 0, sw, sh) := by
      unfold cropBox
      rw [if_neg (by omega), if_neg (by omega)]
    rw [hbox]
    dsimp only
    exact ⟨⟨Nat.zero_le _, Nat.zero_le _, Nat.le_refl _, Nat.le_refl _⟩,
           fun h => absurd h (by omega), fun h => absurd h (by omega)⟩
  · have hq : sh * tw / th < sw := by
      refine Nat.div_lt_of_lt_mul ?_
      rw [Nat.mul_comm sh tw, Nat.mul_comm th sw]
      exact hlt
    have ht : (sw - sh * tw / th) / 2 ≤ sw - sh * tw / th := Nat.div_le_self _ _
    have hbox : cropBox tw th sw sh =
        ((sw - sh * tw / th) / 2, 0,
         (sw - sh * tw / th) / 2 + sh * tw / th, sh) := by
      unfold cropBox
      rw [if_neg (by omega), if_pos hlt]
    rw [hbox]
    dsimp only
    generalize hqv : sh * tw / th = q at hq ht ⊢
    refine ⟨⟨Nat.le_add_right _ _, Nat.zero_le _, by omega, Nat.le_refl _⟩,
            fun h => absurd h (Nat.lt_asymm hlt), fun _ => ⟨rfl, rfl, hq⟩⟩

/-- Witness for C10: the crop rectangle for a 1000x600 source and a
120x80 target is (50, 0, 950, 600): inside the source, full height. -/
theorem crop_box_within_bounds_witness :
    cropBox 120 80 1000 600 = (50, 0, 950, 600) ∧
    (cropBox 120 80 1000 600).2.2.1 ≤ 1000 ∧
    (cropBox 120 80 1000 600).2.2.2 ≤ 600 := by
  have h := crop_box_within_bounds 1000 600 120 80 (by omega) (by omega)
      (by omega) (by omega)
  exact ⟨by decide, h.1.2.2.1, h.1.2.2.2⟩

/-! ### C5: invertibility of the orientation transforms -/

/-- Claim C5: for every orientation value 1-8, the transform the
`exif_rotations` table applies is an invertible geometric transform:
composing it with its inverse restores every image pixel for pixel
(extensional equality on dimensions and in-bounds pixels). -/
theorem exif_transforms_invertible (o : Nat) (h1 : 1 ≤ o) (h8 : o ≤ 8)
    (image : Image) :
    ImageEq (orientTransformInv o (orientTransform o image)) image := by
  interval_cases o
  · exact ⟨rfl, rfl, fun x hx y hy => rfl⟩
  · refine ⟨rfl, rfl, fun x hx y hy => ?_⟩
    show image.pix (image.w - 1 - (image.w - 1 - x)) y = image.pix x y
    exact pixCongr image _ _ x y (by omega) rfl
  · refine ⟨rfl, rfl, fun x hx y hy => ?_⟩
    show image.pix (image.w - 1 - (image.w - 1 - x))
        (image.h - 1 - (image.h - 1 - y)) = image.pix x y
    exact pixCongr image _ _ x y (by omega) (by omega)
  · refine ⟨rfl, rfl, fun x hx y hy => ?_⟩
    show image.pix x (image.h - 1 - (image.h - 1 - y)) = image.pix x y
    exact pixCongr image _ _ x y rfl (by omega)
  · refine ⟨rfl, rfl, fun x hx y hy => ?_⟩
    show image.pix x
        (image.h - 1 - (image.h - 1 - (image.h - 1 - (image.h - 1 - y)))) =
      image.pix x y
    exact pixCongr image _ _ x y rfl (by omega)
  · refine ⟨rfl, rfl, fun x hx y hy => ?_⟩
    show image.pix x (image.h - 1 - (image.h - 1 - y)) = image.pix x y
    exact pixCongr image _ _ x y rfl (by omega)
  · refine ⟨rfl, rfl, fun x hx y hy => ?_⟩
    show image.pix (image.w - 1 - (image.w - 1 - x))
        (image.h - 1 - (image.h - 1 - y)) = image.pix x y
    exact pixCongr image _ _ x y (by omega) (by omega)
  · refine ⟨rfl, rfl, fun x hx y hy => ?_⟩
    show image.pix (image.w - 1 - (image.w - 1 - x)) y = image.pix x y
    exact pixCongr image _ _ x y (by omega) rfl

/-- Witness for C5: the rotate-270 entry (orientation 6) composed with
its inverse restores the concrete test image. -/
theorem exif_transforms_invertible_witness :
    (1 ≤ 6 ∧ 6 ≤ 8) ∧
    ImageEq (orientTransformInv 6 (orientTransform 6 exifTestImage)) exifTestImage :=
  ⟨by omega, exif_transforms_invertible 6 (by omega) (by omega) exifTestImage⟩

/-- Witness for C9: with DEBUG on, serving `/other/x.jpg`, which lies
outside the configured root `/data`, returns its full contents with no
error and no delegation header. -/
theorem debug_serving_ignores_sendfile_root_witness :
    serve_private_media debugSettings ImsHeader.absent galleryFs
        (some "image/jpeg", none) "/other/x.jpg" =
      Except.ok { status := 200, mimetype := "image/jpeg",
                  body := [10, 20, 30, 40, 50], sendfile := none,
                  lastModified := some 100, contentLength := some 5,
                  contentEncoding := none } := by
  have h := debug_serving_ignores_sendfile_root.1 debugSettings ImsHeader.absent
      galleryFs (some "image/jpeg", none) "/other/x.jpg" ⟨100, 5, true⟩
      rfl (by decide) rfl
  simpa using h

end Gallery
